import Mathlib

set_option maxRecDepth 40000

/-!
Verification of the pyBAR run orchestration engine and FEI4 register/command
protocol against its natural-language specification.

The definitions below are a shallow embedding of the two source files
`pybar/fei4/fei4_defines.py` and `pybar/fei4_run_base.py`: pure data tables
become Lean lists, stateful methods become explicit state-passing functions,
and Python exceptions become `Except`/error-carrying results.
-/

/-! ## Register model (`pybar/fei4/fei4_defines.py`)

A global register entry as it appears in the `global_registers` dicts:
name, default value, address, bit length, bit offset in the word
(Python default 0 when the `offset` key is absent), and the three boolean
flags (`readonly`, `littleendian`, `register_littleendian`, all defaulting
to False when absent). -/
structure GlobReg where
  name : String
  value : Nat
  address : Nat
  bitlength : Nat
  offset : Nat
  readonly : Bool
  littleendian : Bool
  register_littleendian : Bool
deriving Repr, DecidableEq

/-- The `fei4a['global_registers']` table, lines 39-139 of `fei4_defines.py`,
in source order. -/
def fei4a_global_registers_1 : List GlobReg := [
  ⟨"spare_1", 0, 1, 16, 0, true, false, false⟩,
  ⟨"spare_2", 0, 2, 11, 0, true, false, false⟩,
  ⟨"Conf_AddrEnable", 1, 2, 1, 11, false, false, false⟩,
  ⟨"Trig_Count", 0, 2, 4, 12, false, false, false⟩,
  ⟨"ErrorMask", 4292872191, 3, 32, 0, false, false, false⟩,
  ⟨"Vthin", 255, 5, 8, 0, false, true, false⟩,
  ⟨"PrmpVbp_R", 43, 5, 8, 8, false, true, false⟩,
  ⟨"PrmpVbp", 43, 6, 8, 0, false, true, false⟩,
  ⟨"DisVbn_CPPM", 62, 6, 8, 8, false, true, false⟩,
  ⟨"DisVbn", 40, 7, 8, 0, false, true, false⟩,
  ⟨"TdacVbp", 240, 7, 8, 8, false, true, false⟩,
  ⟨"Amp2VbpFol", 26, 8, 8, 0, false, true, false⟩,
  ⟨"Amp2Vbn", 79, 8, 8, 8, false, true, false⟩,
  ⟨"Amp2Vbp", 85, 9, 8, 0, false, true, false⟩,
  ⟨"PrmpVbp_T", 0, 9, 8, 8, false, true, false⟩,
  ⟨"Amp2Vbpff", 50, 10, 8, 0, false, true, false⟩,
  ⟨"FdacVbn", 15, 10, 8, 8, false, true, false⟩,
  ⟨"PrmpVbp_L", 43, 11, 8, 0, false, true, false⟩,
  ⟨"PrmpVbnFol", 106, 11, 8, 8, false, true, false⟩,
  ⟨"PrmpVbnLcc", 0, 12, 8, 0, false, true, false⟩,
  ⟨"PrmpVbpf", 27, 12, 8, 8, false, true, false⟩,
  ⟨"spare_13", 0, 13, 1, 0, true, false, false⟩,
  ⟨"Pixel_Strobes", 0, 13, 13, 1, false, true, false⟩,
  ⟨"S0", 0, 13, 1, 14, false, false, false⟩,
  ⟨"S1", 0, 13, 1, 15, false, false, false⟩,
  ⟨"BonnDac", 237, 14, 8, 0, false, true, false⟩,
  ⟨"LvdsDrvIref", 171, 14, 8, 8, false, true, false⟩,
  ⟨"LvdsDrvVos", 105, 15, 8, 0, false, true, false⟩,
  ⟨"PllIbias", 88, 15, 8, 8, false, true, false⟩,
  ⟨"PllIcp", 28, 16, 8, 0, false, true, false⟩,
  ⟨"TempSensIbias", 0, 16, 8, 8, false, true, false⟩,
  ⟨"PlsrIdacRamp", 180, 17, 8, 0, false, true, false⟩,
  ⟨"spare_17", 0, 17, 8, 8, true, false, false⟩,
  ⟨"PlsrVgOpAmp", 255, 18, 8, 0, false, true, false⟩,
  ⟨"spare_18", 0, 18, 8, 8, true, false, false⟩,
  ⟨"spare_19", 0, 19, 8, 0, true, false, false⟩,
  ⟨"PlsrDacBias", 96, 19, 8, 8, false, true, false⟩,
  ⟨"Vthin_AltFine", 80, 20, 8, 0, false, true, false⟩,
  ⟨"Vthin_AltCoarse", 0, 20, 8, 8, false, true, false⟩,
  ⟨"PlsrDAC", 0, 21, 10, 0, false, true, false⟩]

def fei4a_global_registers_2 : List GlobReg := [
  ⟨"DIGHITIN_SEL", 0, 21, 1, 10, false, false, false⟩,
  ⟨"DINJ_OVERRIDE", 0, 21, 1, 11, false, false, false⟩,
  ⟨"HITLD_IN", 0, 21, 1, 12, false, false, false⟩,
  ⟨"spare_21", 0, 21, 3, 13, true, false, false⟩,
  ⟨"spare_22_0", 0, 22, 2, 0, true, false, false⟩,
  ⟨"Colpr_Addr", 0, 22, 6, 2, false, true, false⟩,
  ⟨"Colpr_Mode", 0, 22, 2, 8, false, true, false⟩,
  ⟨"spare_22_1", 0, 22, 6, 10, true, false, false⟩,
  ⟨"DisableColumnCnfg", 0, 23, 40, 0, false, true, false⟩,
  ⟨"Trig_Lat", 210, 25, 8, 8, false, false, false⟩,
  ⟨"HitDiscCnfg", 0, 26, 2, 0, false, false, false⟩,
  ⟨"StopModeCnfg", 0, 26, 1, 2, false, false, false⟩,
  ⟨"CMDcnt", 11, 26, 14, 3, false, false, false⟩,
  ⟨"SR_Clock", 0, 27, 1, 1, false, false, false⟩,
  ⟨"Latch_En", 0, 27, 1, 2, false, false, false⟩,
  ⟨"SR_Clr", 0, 27, 1, 3, false, false, false⟩,
  ⟨"CalEn", 0, 27, 1, 4, false, false, false⟩,
  ⟨"GateHitOr", 0, 27, 1, 5, false, false, false⟩,
  ⟨"spare_27", 0, 27, 5, 6, true, false, false⟩,
  ⟨"ReadSkipped", 0, 27, 1, 11, false, false, false⟩,
  ⟨"ReadErrorReq", 0, 27, 1, 12, false, false, false⟩,
  ⟨"StopClkPulse", 0, 27, 1, 13, false, false, false⟩,
  ⟨"Efuse_Sense", 0, 27, 1, 14, false, false, false⟩,
  ⟨"EN_PLL", 1, 27, 1, 15, false, false, false⟩,
  ⟨"EN_320M", 0, 28, 1, 0, false, false, false⟩,
  ⟨"EN_160M", 1, 28, 1, 1, false, false, false⟩,
  ⟨"CLK0_S2", 1, 28, 1, 2, false, false, false⟩,
  ⟨"CLK0_S1", 0, 28, 1, 3, false, false, false⟩,
  ⟨"CLK0_S0", 0, 28, 1, 4, false, false, false⟩,
  ⟨"CLK1_S2", 0, 28, 1, 5, false, false, false⟩,
  ⟨"CLK1_S1", 0, 28, 1, 6, false, false, false⟩,
  ⟨"CLK1_S0", 0, 28, 1, 7, false, false, false⟩,
  ⟨"EN_80M", 0, 28, 1, 8, false, false, false⟩,
  ⟨"EN_40M", 0, 28, 1, 9, false, false, false⟩,
  ⟨"spare_28", 0, 28, 5, 10, true, false, false⟩,
  ⟨"LvdsDrvSet06", 1, 28, 1, 15, false, false, false⟩,
  ⟨"LvdsDrvSet12", 1, 29, 1, 0, false, false, false⟩,
  ⟨"LvdsDrvSet30", 1, 29, 1, 1, false, false, false⟩,
  ⟨"LvdsDrvEn", 1, 29, 1, 2, false, false, false⟩,
  ⟨"spare_29_0", 0, 29, 1, 3, true, false, false⟩]

def fei4a_global_registers_3 : List GlobReg := [
  ⟨"EmptyRecordCnfg", 0, 29, 8, 4, false, false, false⟩,
  ⟨"Clk2OutCnfg", 0, 29, 1, 12, false, false, false⟩,
  ⟨"No8b10b", 0, 29, 1, 13, false, false, false⟩,
  ⟨"spare_29_1", 0, 29, 2, 14, true, false, false⟩,
  ⟨"spare_30", 0, 30, 16, 0, true, false, false⟩,
  ⟨"spare_31", 0, 31, 4, 0, true, false, false⟩,
  ⟨"ExtAnaCalSW", 0, 31, 1, 4, false, false, false⟩,
  ⟨"ExtDigCalSW", 0, 31, 1, 5, false, false, false⟩,
  ⟨"PlsrDelay", 2, 31, 6, 6, false, true, false⟩,
  ⟨"PlsrPwr", 1, 31, 1, 12, false, false, false⟩,
  ⟨"PlsrRiseUpTau", 7, 31, 3, 13, false, false, false⟩,
  ⟨"SELB", 0, 32, 40, 0, false, false, true⟩,
  ⟨"spare_34", 0, 34, 4, 8, true, false, true⟩,
  ⟨"Cref", 13, 34, 4, 12, false, true, true⟩,
  ⟨"Chip_SN", 0, 35, 16, 0, false, false, false⟩,
  ⟨"0_64", 0, 36, 64, 0, true, false, false⟩,
  ⟨"0010101010101010", 10922, 40, 16, 0, true, false, false⟩,
  ⟨"10101010", 170, 41, 8, 0, true, false, false⟩,
  ⟨"EOCHLSkipped", 0, 41, 8, 8, true, false, false⟩,
  ⟨"CMDErrReg", 0, 42, 16, 0, true, false, false⟩,
  ⟨"0_336", 0, 43, 336, 0, true, false, false⟩]

def fei4a_global_registers : List GlobReg :=
  fei4a_global_registers_1 ++ fei4a_global_registers_2 ++ fei4a_global_registers_3


/-- The `fei4b['global_registers']` table, lines 157-270 of `fei4_defines.py`,
in source order. -/
def fei4b_global_registers_1 : List GlobReg := [
  ⟨"spare_0", 0, 0, 16, 0, true, false, false⟩,
  ⟨"EventLimit", 0, 1, 8, 0, false, true, false⟩,
  ⟨"SmallHitErase", 0, 1, 1, 8, false, false, false⟩,
  ⟨"spare_1", 0, 1, 7, 9, true, false, false⟩,
  ⟨"spare_2", 0, 2, 11, 0, true, false, false⟩,
  ⟨"Conf_AddrEnable", 1, 2, 1, 11, false, false, false⟩,
  ⟨"Trig_Count", 0, 2, 4, 12, false, false, false⟩,
  ⟨"ErrorMask", 4292986879, 3, 32, 0, false, false, false⟩,
  ⟨"GADCVref", 160, 5, 8, 0, false, true, false⟩,
  ⟨"PrmpVbp_R", 43, 5, 8, 8, false, true, false⟩,
  ⟨"PrmpVbp", 43, 6, 8, 0, false, true, false⟩,
  ⟨"spare_6", 0, 6, 8, 8, true, false, false⟩,
  ⟨"DisVbn", 40, 7, 8, 0, false, true, false⟩,
  ⟨"TdacVbp", 100, 7, 8, 8, false, true, false⟩,
  ⟨"Amp2VbpFol", 26, 8, 8, 0, false, true, false⟩,
  ⟨"Amp2Vbn", 79, 8, 8, 8, false, true, false⟩,
  ⟨"Amp2Vbp", 85, 9, 8, 0, false, true, false⟩,
  ⟨"spare_9", 0, 9, 8, 8, true, false, false⟩,
  ⟨"Amp2Vbpff", 50, 10, 8, 0, false, true, false⟩,
  ⟨"FdacVbn", 30, 10, 8, 8, false, true, false⟩,
  ⟨"PrmpVbp_L", 43, 11, 8, 0, false, true, false⟩,
  ⟨"PrmpVbnFol", 106, 11, 8, 8, false, true, false⟩,
  ⟨"PrmpVbnLcc", 0, 12, 8, 0, false, true, false⟩,
  ⟨"PrmpVbpf", 27, 12, 8, 8, false, true, false⟩,
  ⟨"spare_13", 0, 13, 1, 0, true, false, false⟩,
  ⟨"Pixel_Strobes", 0, 13, 13, 1, false, true, false⟩,
  ⟨"S0", 0, 13, 1, 14, false, false, false⟩,
  ⟨"S1", 0, 13, 1, 15, false, false, false⟩,
  ⟨"GADCCompBias", 100, 14, 8, 0, false, true, false⟩,
  ⟨"LVDSDrvIref", 171, 14, 8, 8, false, true, false⟩,
  ⟨"LvdsDrvVos", 105, 15, 8, 0, false, true, false⟩,
  ⟨"PllIbias", 88, 15, 8, 8, false, true, false⟩,
  ⟨"PllIcp", 28, 16, 8, 0, false, true, false⟩,
  ⟨"TempSensIbias", 0, 16, 8, 8, false, true, false⟩,
  ⟨"PlsrIdacRamp", 180, 17, 8, 0, false, true, false⟩,
  ⟨"spare_17", 0, 17, 8, 8, true, false, false⟩,
  ⟨"PlsrVgOpAmp", 255, 18, 8, 0, false, true, false⟩,
  ⟨"VrefDigTune", 100, 18, 8, 8, false, true, false⟩,
  ⟨"VrefAnTune", 0, 19, 8, 0, false, true, false⟩,
  ⟨"PlsrDacBias", 96, 19, 8, 8, false, true, false⟩]

def fei4b_global_registers_2 : List GlobReg := [
  ⟨"Vthin_AltFine", 80, 20, 8, 0, false, true, false⟩,
  ⟨"Vthin_AltCoarse", 0, 20, 8, 8, false, true, false⟩,
  ⟨"PlsrDAC", 0, 21, 10, 0, false, true, false⟩,
  ⟨"DIGHITIN_SEL", 0, 21, 1, 10, false, false, false⟩,
  ⟨"DINJ_OVERRIDE", 0, 21, 1, 11, false, false, false⟩,
  ⟨"HITLD_IN", 0, 21, 1, 12, false, false, false⟩,
  ⟨"spare_21", 0, 21, 3, 13, true, false, false⟩,
  ⟨"spare_22_0", 0, 22, 2, 0, true, false, false⟩,
  ⟨"Colpr_Addr", 0, 22, 6, 2, false, true, false⟩,
  ⟨"Colpr_Mode", 0, 22, 2, 8, false, true, false⟩,
  ⟨"spare_22_1", 0, 22, 6, 10, true, false, false⟩,
  ⟨"DisableColumnCnfg", 0, 23, 40, 0, false, true, false⟩,
  ⟨"Trig_Lat", 210, 25, 8, 8, false, false, false⟩,
  ⟨"HitDiscCnfg", 0, 26, 2, 0, false, false, false⟩,
  ⟨"StopModeCnfg", 0, 26, 1, 2, false, false, false⟩,
  ⟨"CMDcnt", 11, 26, 14, 3, false, false, false⟩,
  ⟨"SR_Clock", 0, 27, 1, 1, false, false, false⟩,
  ⟨"Latch_En", 0, 27, 1, 2, false, false, false⟩,
  ⟨"SR_Clr", 0, 27, 1, 3, false, false, false⟩,
  ⟨"CalEn", 0, 27, 1, 4, false, false, false⟩,
  ⟨"GateHitOr", 0, 27, 1, 5, false, false, false⟩,
  ⟨"spare_27_0", 0, 27, 3, 6, true, false, false⟩,
  ⟨"SR_Read", 0, 27, 1, 9, false, false, false⟩,
  ⟨"GADCStart", 0, 27, 1, 10, false, false, false⟩,
  ⟨"spare_27_1", 0, 27, 1, 11, true, false, false⟩,
  ⟨"ReadErrorReq", 0, 27, 1, 12, false, false, false⟩,
  ⟨"StopClkPulse", 0, 27, 1, 13, false, false, false⟩,
  ⟨"Efuse_Sense", 0, 27, 1, 14, false, false, false⟩,
  ⟨"EN_PLL", 1, 27, 1, 15, false, false, false⟩,
  ⟨"EN_320M", 0, 28, 1, 0, false, false, false⟩,
  ⟨"EN_160M", 1, 28, 1, 1, false, false, false⟩,
  ⟨"CLK0_S2", 1, 28, 1, 2, false, false, false⟩,
  ⟨"CLK0_S1", 0, 28, 1, 3, false, false, false⟩,
  ⟨"CLK0_S0", 0, 28, 1, 4, false, false, false⟩,
  ⟨"CLK1_S2", 0, 28, 1, 5, false, false, false⟩,
  ⟨"CLK1_S1", 0, 28, 1, 6, false, false, false⟩,
  ⟨"CLK1_S0", 0, 28, 1, 7, false, false, false⟩,
  ⟨"EN_80M", 0, 28, 1, 8, false, false, false⟩,
  ⟨"EN_40M", 0, 28, 1, 9, false, false, false⟩,
  ⟨"spare_28", 0, 28, 5, 10, true, false, false⟩]

def fei4b_global_registers_3 : List GlobReg := [
  ⟨"LvdsDrvSet06", 1, 28, 1, 15, false, false, false⟩,
  ⟨"LvdsDrvSet12", 1, 29, 1, 0, false, false, false⟩,
  ⟨"LvdsDrvSet30", 1, 29, 1, 1, false, false, false⟩,
  ⟨"LvdsDrvEn", 1, 29, 1, 2, false, false, false⟩,
  ⟨"spare_29_0", 0, 29, 1, 3, true, false, false⟩,
  ⟨"EmptyRecordCnfg", 0, 29, 8, 4, false, false, false⟩,
  ⟨"Clk2OutCnfg", 0, 29, 1, 12, false, false, false⟩,
  ⟨"No8b10b", 0, 29, 1, 13, false, false, false⟩,
  ⟨"spare_29_1", 0, 29, 2, 14, true, false, false⟩,
  ⟨"spare_30", 0, 30, 12, 0, true, false, false⟩,
  ⟨"MonleakRange", 0, 30, 1, 12, false, false, false⟩,
  ⟨"TempSensDisable", 1, 30, 1, 13, false, false, false⟩,
  ⟨"TempSensDiodeBiasSel", 0, 30, 2, 14, false, true, false⟩,
  ⟨"GADCSel", 0, 31, 3, 0, false, false, false⟩,
  ⟨"spare_31", 0, 31, 1, 3, true, false, false⟩,
  ⟨"ExtAnaCalSW", 0, 31, 1, 4, false, false, false⟩,
  ⟨"ExtDigCalSW", 0, 31, 1, 5, false, false, false⟩,
  ⟨"PlsrDelay", 2, 31, 6, 6, false, true, false⟩,
  ⟨"PlsrPwr", 1, 31, 1, 12, false, false, false⟩,
  ⟨"PlsrRiseUpTau", 7, 31, 3, 13, false, false, false⟩,
  ⟨"SELB", 0, 32, 40, 0, false, false, true⟩,
  ⟨"spare_34_0", 0, 34, 3, 8, true, false, true⟩,
  ⟨"PrmpVbpMsbEn", 0, 34, 1, 11, false, false, true⟩,
  ⟨"spare_34_1", 0, 34, 4, 12, true, false, true⟩,
  ⟨"Chip_SN", 0, 35, 16, 0, false, false, false⟩,
  ⟨"0_64", 0, 36, 64, 0, true, false, false⟩,
  ⟨"GADCSelRB", 0, 40, 3, 0, true, true, false⟩,
  ⟨"GADCStatus", 0, 40, 1, 3, true, false, false⟩,
  ⟨"GADCout", 0, 40, 10, 4, true, false, false⟩,
  ⟨"00", 0, 40, 2, 14, true, false, false⟩,
  ⟨"10101010", 170, 41, 8, 0, true, false, false⟩,
  ⟨"EOCHLSkipped", 0, 41, 8, 8, true, false, false⟩,
  ⟨"CMDErrReg", 0, 42, 16, 0, true, false, false⟩,
  ⟨"0_336", 0, 43, 336, 0, true, false, false⟩]

def fei4b_global_registers : List GlobReg :=
  fei4b_global_registers_1 ++ fei4b_global_registers_2 ++ fei4b_global_registers_3


/-! ## Command protocol templates (`fei4a['commands']`, lines 16-37)

A bitstream template is an ordered sequence of segments: literal bit
strings and named references.  In the source, a reference is either one
of the declared parts (`ChipID`, `Address`, `GlobalData`, `PixelData`,
`Width`) carrying a declared `bitlength`, or the name of another command
(only `Slow`, the slow-command header, whose bitstream is the literal
`101101000`). -/
inductive Seg where
  | lit (s : String)
  | ref (name : String)
deriving Repr, DecidableEq

/-- A command template: name, ordered segments of its `bitstream`, and its
declared `bitlength`. Fast commands are a single literal segment. -/
structure CmdTemplate where
  name : String
  segs : List Seg
  bitlength : Nat
deriving Repr, DecidableEq

/-- The declared bit lengths of the named parts of `fei4a['commands']`
(lines 32-36 of `fei4_defines.py`). -/
def fei4a_parts : List (String × Nat) :=
  [("ChipID", 4), ("Address", 6), ("GlobalData", 16), ("PixelData", 672), ("Width", 6)]

/-- The literal bitstream of the `Slow` command header (line 22). -/
def slowHeader : String := "101101000"

/-- The command templates of `fei4a['commands']` (lines 18-30), with each
`bitstream` string split at its `+` separators into segments. -/
def fei4a_commands : List CmdTemplate := [
  ⟨"LV1", [.lit "11101"], 5⟩,
  ⟨"BCR", [.lit "101100001"], 9⟩,
  ⟨"ECR", [.lit "101100010"], 9⟩,
  ⟨"CAL", [.lit "101100100"], 9⟩,
  ⟨"Slow", [.lit slowHeader], 9⟩,
  ⟨"RdRegister", [.ref "Slow", .lit "0001", .ref "ChipID", .ref "Address"], 23⟩,
  ⟨"WrRegister", [.ref "Slow", .lit "0010", .ref "ChipID", .ref "Address", .ref "GlobalData"], 39⟩,
  ⟨"WrFrontEnd", [.ref "Slow", .lit "0100", .ref "ChipID", .lit "000000", .ref "PixelData"], 695⟩,
  ⟨"GlobalReset", [.ref "Slow", .lit "1000", .ref "ChipID"], 17⟩,
  ⟨"GlobalPulse", [.ref "Slow", .lit "1001", .ref "ChipID", .ref "Width"], 23⟩,
  ⟨"RunMode", [.ref "Slow", .lit "1010", .ref "ChipID", .lit "111000"], 23⟩,
  ⟨"ConfMode", [.ref "Slow", .lit "1010", .ref "ChipID", .lit "000111"], 23⟩]

/-- Length in bits contributed by one segment: a literal contributes its
string length; a part reference contributes its declared `bitlength`; the
`Slow` command reference contributes the length of the slow header literal. -/
def segLen (seg : Seg) : Nat :=
  match seg with
  | .lit s => s.length
  | .ref n =>
    match (fei4a_parts.lookup n) with
    | some l => l
    | none => if n = "Slow" then slowHeader.length else 0

/-- Total bit length of a template's segments. -/
def segsLen (segs : List Seg) : Nat := (segs.map segLen).sum

/-- C5: for every fei4a command template, the sum of the lengths of its
literal segments plus the declared bit lengths of its referenced fields
(Slow header 9, ChipID 4, Address 6, GlobalData 16, PixelData 672, Width 6)
equals the template's declared `bitlength`; in particular WrRegister has
9 + 4 + 4 + 6 + 16 = 39 bits. -/
theorem fei4a_command_bitlengths_consistent :
    (fei4a_commands.all (fun c => segsLen c.segs == c.bitlength)) = true ∧
    segsLen [Seg.ref "Slow", .lit "0010", .ref "ChipID", .ref "Address", .ref "GlobalData"]
      = 9 + 4 + 4 + 6 + 16 := by
  constructor
  · rfl
  · rfl

/-- The six register names whose layout spans more than one 16-bit
global-register word (bit length alone, or offset plus bit length,
exceeds 16). -/
def multiWordRegisterNames : List String :=
  ["ErrorMask", "DisableColumnCnfg", "CMDcnt", "SELB", "0_64", "0_336"]

/-- C8 counterexample: the claim "for every global register entry of every
chip flavor, bit offset plus bit length is at most 16" is false: the fei4a
`ErrorMask` entry has offset 0 and bit length 32, and `CMDcnt` has
offset 3 and bit length 14, so offset + bitlength exceeds 16. -/
theorem global_register_word_bound_fails :
    ((fei4a_global_registers ++ fei4b_global_registers).all
      (fun r => r.offset + r.bitlength ≤ 16)) = false ∧
    (fei4a_global_registers.filter (fun r => r.name == "ErrorMask")).map
      (fun r => r.offset + r.bitlength) = [32] ∧
    (fei4a_global_registers.filter (fun r => r.name == "CMDcnt")).map
      (fun r => r.offset + r.bitlength) = [17] := by
  refine ⟨by rfl, by rfl, by rfl⟩

/-- C8 amended: every global register entry of both flavors either fits in
its 16-bit word (offset + bitlength ≤ 16) or is one of the six multi-word
registers (ErrorMask, DisableColumnCnfg, CMDcnt, SELB, 0_64, 0_336), whose
payload continues into the following addresses; moreover each of those six
names does exceed the 16-bit bound in both flavors. -/
theorem global_register_word_bound_amended :
    ((fei4a_global_registers ++ fei4b_global_registers).all
      (fun r => decide (r.offset + r.bitlength ≤ 16) || multiWordRegisterNames.contains r.name)) = true ∧
    (multiWordRegisterNames.all (fun n =>
      ((fei4a_global_registers ++ fei4b_global_registers).filter (fun r => r.name == n)).all
        (fun r => decide (16 < r.offset + r.bitlength)))) = true := by
  exact ⟨by rfl, by rfl⟩

/-! ## Module registry (`Fei4RunBase._parse_module_cfgs` / `_set_default_cfg`)

A module configuration as consumed by the group-derivation checks in
`_set_default_cfg` (lines 205-273 of `fei4_run_base.py`).  Only the fields
the validation logic reads are modelled; the remaining driver bindings
(`RX`, `rx_channel`, ...) are merely copied into the derived broadcast
entries and never validated.  `chip_address = none` denotes broadcast
addressing. -/
structure ModuleCfg where
  id : String
  TX : String
  FIFO : String
  fe_flavor : String
  chip_address : Option Nat
deriving Repr, DecidableEq

/-- The modules of one command-line (TX) group: those whose `TX` driver
name equals `tx` (the partition computed by `groupby_dict(..., "TX")`). -/
def groupModules (ms : List ModuleCfg) (tx : String) : List ModuleCfg :=
  ms.filter (fun m => m.TX == tx)

/-- Line 228-230: `fe_flavors = list(set(...)); if len(fe_flavors) != 1: raise`.
True when the flavor check of a TX group raises `ValueError`. -/
def flavorCheckFails (g : List ModuleCfg) : Bool :=
  ((g.map (fun m => m.fe_flavor)).dedup).length != 1

/-- Lines 232-234: `chip_addresses = list(set(...))`;
`if len(module_group) != len(chip_addresses) or (len(module_group) != 1 and None in chip_addresses): raise`.
True when the chip-address check of a TX group raises `ValueError`. -/
def chipAddressCheckFails (g : List ModuleCfg) : Bool :=
  let chip_addresses := ((g.map (fun m => m.chip_address)).dedup)
  (g.length != chip_addresses.length) ||
    (g.length != 1 && chip_addresses.contains none)

/-- The exceptions `_set_default_cfg` can raise. -/
inductive CfgError where
  | valueErrorFlavor (tx : String)
  | valueErrorChipAddress (tx : String)
  | notImplementedMultiFifo
deriving Repr, DecidableEq

/-- The TX-group validation loop of `_set_default_cfg` (lines 227-234):
for each command-line group in turn, the flavor check runs first, then the
chip-address check; the first failing check raises. -/
def txGroupLoop (ms : List ModuleCfg) : List String → Option CfgError
  | [] => none
  | tx :: rest =>
    let g := groupModules ms tx
    if flavorCheckFails g then some (.valueErrorFlavor tx)
    else if chipAddressCheckFails g then some (.valueErrorChipAddress tx)
    else txGroupLoop ms rest

/-- The distinct TX driver names referenced by the modules (the keys of the
`groupby_dict` partition). -/
def txKeys (ms : List ModuleCfg) : List String := (ms.map (fun m => m.TX)).dedup

/-- The distinct FIFO driver names referenced by the modules (the keys of
the `groupby_dict(..., "FIFO")` partition, line 252). -/
def fifoKeys (ms : List ModuleCfg) : List String := (ms.map (fun m => m.FIFO)).dedup

/-- `Fei4RunBase._set_default_cfg`, reduced to its validation behavior:
the TX-group loop (lines 227-250) raises on an inconsistent flavor or
chip-address set; afterwards line 253-254 raises
`NotImplementedError("Handling of more than one FIFO is not implemented.")`
when the FIFO partition has more than one group. -/
def set_default_cfg (ms : List ModuleCfg) : Except CfgError Unit :=
  match txGroupLoop ms (txKeys ms) with
  | some e => .error e
  | none =>
    if 1 < (fifoKeys ms).length then .error .notImplementedMultiFifo
    else .ok ()

/-- Spec-worded predicate for C4 ("two non-broadcast members of the same
command-line group share a chip address"): the non-`None` chip addresses of
the group contain a duplicate. -/
def sharesNonBroadcastAddress (g : List ModuleCfg) : Bool :=
  !(decide ((g.map (fun m => m.chip_address)).filterMap id).Nodup)

/-- A list of distinct values has the length of the original list iff the
original list has no duplicates. -/
theorem dedup_length_eq_iff {α : Type} [DecidableEq α] (l : List α) :
    l.dedup.length = l.length ↔ l.Nodup := by
  constructor
  · intro h
    have hsub : l.dedup.Sublist l := List.dedup_sublist l
    have heq : l.dedup = l := hsub.eq_of_length h
    rw [← heq]
    exact List.nodup_dedup l
  · intro h
    rw [List.dedup_eq_self.mpr h]

/-- Mapping `some` over the defined entries of a list of options yields a
sublist of the original list. -/
theorem filterMap_id_map_some_sublist {α : Type} (l : List (Option α)) :
    ((l.filterMap id).map some).Sublist l := by
  induction l with
  | nil => simp
  | cons a t ih =>
    cases a with
    | none => simpa [List.filterMap_cons] using ih.cons none
    | some b => simpa [List.filterMap_cons] using ih.cons₂ (some b)

/-- If a list of options has no duplicates, neither do its defined entries. -/
theorem nodup_filterMap_id {α : Type} {l : List (Option α)} (h : l.Nodup) :
    (l.filterMap id).Nodup := by
  have h₁ : ((l.filterMap id).map some).Nodup :=
    (filterMap_id_map_some_sublist l).nodup h
  exact h₁.of_map some

/-- The TX-group loop raises only `ValueError`s, never the multi-FIFO
`NotImplementedError`. -/
theorem txGroupLoop_ne_multiFifo (ms : List ModuleCfg) (txs : List String) :
    txGroupLoop ms txs ≠ some .notImplementedMultiFifo := by
  induction txs with
  | nil => simp [txGroupLoop]
  | cons tx rest ih =>
    simp only [txGroupLoop]
    split
    · simp
    · split
      · simp
      · exact ih

/-- C4 counterexample: the claim "DuplicateAddress is raised iff two
non-broadcast members of the same TX group share a chip address; a TX group
with pairwise distinct chip addresses derives without error" is false on
the concrete configuration of two modules on TX0 with chip addresses 1 and
None: the addresses are pairwise distinct and no two non-broadcast members
share an address, yet `_set_default_cfg` raises the chip-address
`ValueError`. -/
theorem chip_address_check_not_iff_share :
    set_default_cfg
      [⟨"module_1", "TX0", "SITCP_FIFO", "fei4a", some 1⟩,
       ⟨"module_2", "TX0", "SITCP_FIFO", "fei4a", none⟩] =
      .error (.valueErrorChipAddress "TX0") ∧
    sharesNonBroadcastAddress
      (groupModules
        [⟨"module_1", "TX0", "SITCP_FIFO", "fei4a", some 1⟩,
         ⟨"module_2", "TX0", "SITCP_FIFO", "fei4a", none⟩] "TX0") = false ∧
    ([some 1, none] : List (Option Nat)).Nodup := by
  refine ⟨by rfl, by rfl, by decide⟩

/-- C4 amended: the chip-address check of a TX group raises iff the members'
chip addresses are not pairwise distinct (counting the broadcast address
`None` as a value) or the group has more than one member and contains a
broadcast (`None`) address.  Consequently a share of an address between two
non-broadcast members always raises, and a group whose addresses are
pairwise distinct and all non-broadcast derives without error. -/
theorem chip_address_check_amended (g : List ModuleCfg) :
    (chipAddressCheckFails g = true ↔
      (¬ (g.map (fun m => m.chip_address)).Nodup ∨
        (g.length ≠ 1 ∧ none ∈ g.map (fun m => m.chip_address)))) ∧
    (sharesNonBroadcastAddress g = true → chipAddressCheckFails g = true) ∧
    ((g.map (fun m => m.chip_address)).Nodup →
      none ∉ g.map (fun m => m.chip_address) → chipAddressCheckFails g = false) := by
  have hlen : (g.map (fun m => m.chip_address)).length = g.length :=
    List.length_map g _
  have hnd_iff : ((g.map (fun m => m.chip_address)).dedup.length = g.length) ↔
      (g.map (fun m => m.chip_address)).Nodup := by
    rw [← hlen]
    exact dedup_length_eq_iff _
  have hmain : chipAddressCheckFails g = true ↔
      (¬ (g.map (fun m => m.chip_address)).Nodup ∨
        (g.length ≠ 1 ∧ none ∈ g.map (fun m => m.chip_address))) := by
    simp only [chipAddressCheckFails, Bool.or_eq_true, Bool.and_eq_true,
      bne_iff_ne, ne_eq, List.contains, List.elem_iff, List.mem_dedup]
    constructor
    · rintro (h | h)
      · exact Or.inl (fun hnd => h (hnd_iff.mpr hnd).symm)
      · exact Or.inr h
    · rintro (h | h)
      · exact Or.inl (fun hq => h (hnd_iff.mp hq.symm))
      · exact Or.inr h
  refine ⟨hmain, ?_, ?_⟩
  · intro hshare
    simp only [sharesNonBroadcastAddress, Bool.not_eq_true',
      decide_eq_false_iff_not] at hshare
    apply hmain.mpr
    exact Or.inl (fun hnd => hshare (nodup_filterMap_id hnd))
  · intro hnd hnone
    cases h : chipAddressCheckFails g with
    | false => rfl
    | true =>
      rcases hmain.mp h with hbad | ⟨_, hbad⟩
      · exact absurd hnd hbad
      · exact absurd hbad hnone

/-- C4 amended, instantiated: a two-member group with distinct non-broadcast
addresses passes the check, and a two-member group sharing a non-broadcast
address fails it. -/
theorem chip_address_check_amended_witness :
    chipAddressCheckFails
      [⟨"m1", "TX0", "F", "fei4a", some 1⟩, ⟨"m2", "TX0", "F", "fei4a", some 2⟩] = false ∧
    chipAddressCheckFails
      [⟨"m1", "TX0", "F", "fei4a", some 3⟩, ⟨"m2", "TX0", "F", "fei4a", some 3⟩] = true :=
  ⟨(chip_address_check_amended
      [⟨"m1", "TX0", "F", "fei4a", some 1⟩, ⟨"m2", "TX0", "F", "fei4a", some 2⟩]).2.2
      (by decide) (by decide),
   (chip_address_check_amended
      [⟨"m1", "TX0", "F", "fei4a", some 3⟩, ⟨"m2", "TX0", "F", "fei4a", some 3⟩]).2.1
      (by decide)⟩

/-- C7: `_set_default_cfg` raises the explicit
"Handling of more than one FIFO is not implemented" error exactly when the
TX-group validations pass and the modules reference more than one distinct
FIFO; whenever more than one FIFO is referenced the configuration fails
(with that error or an earlier validation error), and whenever all modules
share one FIFO the multi-FIFO error is never raised. -/
theorem single_fifo_supported (ms : List ModuleCfg) :
    (set_default_cfg ms = .error .notImplementedMultiFifo ↔
      txGroupLoop ms (txKeys ms) = none ∧ 1 < (fifoKeys ms).length) ∧
    (1 < (fifoKeys ms).length → set_default_cfg ms ≠ .ok ()) ∧
    ((fifoKeys ms).length ≤ 1 → set_default_cfg ms ≠ .error .notImplementedMultiFifo) := by
  unfold set_default_cfg
  cases h : txGroupLoop ms (txKeys ms) with
  | some e =>
    refine ⟨?_, ?_, ?_⟩
    · constructor
      · intro hc
        exact absurd (h.trans (by injection hc with he; rw [he]))
          (txGroupLoop_ne_multiFifo ms (txKeys ms))
      · rintro ⟨hnone, _⟩
        exact absurd hnone (by simp)
    · intro _
      simp
    · intro _
      intro hc
      exact absurd (h.trans (by injection hc with he; rw [he]))
        (txGroupLoop_ne_multiFifo ms (txKeys ms))
  | none =>
    by_cases hf : 1 < (fifoKeys ms).length
    · simp [hf]
    · simp [hf]

/-- C7 instantiated: a two-FIFO configuration fails, and a one-FIFO
configuration does not raise the multi-FIFO error. -/
theorem single_fifo_supported_witness :
    set_default_cfg
      [⟨"m1", "TX0", "FIFO0", "fei4a", some 1⟩, ⟨"m2", "TX1", "FIFO1", "fei4a", some 2⟩] ≠
      .ok () ∧
    set_default_cfg [⟨"m1", "TX0", "FIFO0", "fei4a", some 1⟩] ≠
      .error .notImplementedMultiFifo :=
  ⟨(single_fifo_supported
      [⟨"m1", "TX0", "FIFO0", "fei4a", some 1⟩, ⟨"m2", "TX1", "FIFO1", "fei4a", some 2⟩]).2.1
      (by decide),
   (single_fifo_supported [⟨"m1", "TX0", "FIFO0", "fei4a", some 1⟩]).2.2 (by decide)⟩

/-! ## Error & recovery manager (`Fei4RunBase.handle_err`, `post_run`)

The fault taxonomy: the exception classes tested by `isinstance` in
`handle_err` (line 857) and `post_run` (line 802), plus a catch-all for
any other exception type. -/
inductive ExcKind where
  | rxSyncError
  | eightbTenbError
  | fifoError
  | noDataTimeout
  | stopTimeout
  | analysisError
  | other (typeName : String)
deriving Repr, DecidableEq

/-- Line 857: `isinstance(exc[1], (RxSyncError, EightbTenbError))`. -/
def isRxRecoverable (e : ExcKind) : Bool :=
  e == .rxSyncError || e == .eightbTenbError

/-- Line 802: `isinstance(exc[1], (RxSyncError, EightbTenbError, FifoError,
NoDataTimeout, StopTimeout, AnalysisError))`. -/
def isWellKnown (e : ExcKind) : Bool :=
  e == .rxSyncError || e == .eightbTenbError || e == .fifoError ||
    e == .noDataTimeout || e == .stopTimeout || e == .analysisError

/-- The run-wide error-handling state: the `abort_run` event flag, the
FIFO `err_queue` (front of the list = first enqueued), a count of
`fifo_readout.reset_rx()` calls, and a count of `self.abort(...)` calls. -/
structure ErrState where
  abort_run : Bool
  err_queue : List ExcKind
  rx_resets : Nat
  abort_calls : Nat
deriving Repr, DecidableEq

/-- Modelled from the spec: `RunBase.abort` lives in `pybar/run_manager.py`,
which is not under `src/`; per the spec it "sets the run-wide abort flag"
observed cooperatively by every thread.  The model also counts the call. -/
def abortRun (s : ErrState) : ErrState :=
  { s with abort_run := true, abort_calls := s.abort_calls + 1 }

/-- `Fei4RunBase.handle_err` (lines 848-864): when `reset_rx_on_error` is
enabled and the fault is an `RxSyncError` or `EightbTenbError`, the readout
status is printed and the receiver is reset, and nothing else happens;
otherwise `self.abort(...)` is called only when the abort flag is not
already set, and the fault is enqueued unconditionally. -/
def handle_err (reset_rx_on_error : Bool) (exc : ExcKind) (s : ErrState) : ErrState :=
  if reset_rx_on_error && isRxRecoverable exc then
    { s with rx_resets := s.rx_resets + 1 }
  else
    let s1 := if !s.abort_run then abortRun s else s
    { s1 with err_queue := s1.err_queue ++ [exc] }

/-- C1: with `reset_rx_on_error` enabled, an `RxSyncError`/`EightbTenbError`
fault only resets the receiver — the abort flag, the error queue and the
abort-call count are untouched; any other fault is always enqueued, leaves
the abort flag set, and triggers `abort()` exactly when the flag was not
already set (so only the first such fault triggers abort). -/
theorem handle_err_policy (reset_rx_on_error : Bool) (exc : ExcKind) (s : ErrState) :
    (reset_rx_on_error = true → isRxRecoverable exc = true →
      ((handle_err reset_rx_on_error exc s).rx_resets = s.rx_resets + 1 ∧
       (handle_err reset_rx_on_error exc s).abort_run = s.abort_run ∧
       (handle_err reset_rx_on_error exc s).err_queue = s.err_queue ∧
       (handle_err reset_rx_on_error exc s).abort_calls = s.abort_calls)) ∧
    ((reset_rx_on_error && isRxRecoverable exc) = false →
      ((handle_err reset_rx_on_error exc s).err_queue = s.err_queue ++ [exc] ∧
       (handle_err reset_rx_on_error exc s).abort_run = true ∧
       (handle_err reset_rx_on_error exc s).abort_calls =
         (if s.abort_run then s.abort_calls else s.abort_calls + 1))) := by
  constructor
  · intro h1 h2
    simp [handle_err, h1, h2]
  · intro h
    cases ha : s.abort_run with
    | false => simp [handle_err, h, abortRun, ha]
    | true => simp [handle_err, h, abortRun, ha]

/-- C1 instantiated: a receiver sync fault under auto-recovery only resets
the receiver, and a FIFO fault in a clean state sets the abort flag,
triggers one abort call and is enqueued. -/
theorem handle_err_policy_witness :
    (handle_err true .rxSyncError ⟨false, [], 0, 0⟩).err_queue = [] ∧
    (handle_err true .rxSyncError ⟨false, [], 0, 0⟩).abort_run = false ∧
    (handle_err false .fifoError ⟨false, [], 0, 0⟩).abort_run = true ∧
    (handle_err false .fifoError ⟨false, [], 0, 0⟩).err_queue = [.fifoError] ∧
    (handle_err false .fifoError ⟨false, [], 0, 0⟩).abort_calls = 1 :=
  have h1 := (handle_err_policy true .rxSyncError ⟨false, [], 0, 0⟩).1 (by decide) (by decide)
  have h2 := (handle_err_policy false .fifoError ⟨false, [], 0, 0⟩).2 (by decide)
  ⟨h1.2.2.1, h1.2.1, h2.2.1, h2.1, h2.2.2⟩

/-- The outcome `post_run` reports for an aborted run: a clean `RunAborted`
wrapper for a well-known fault kind, or the original exception re-raised
with its type, value and traceback. -/
inductive RunOutcome where
  | runAborted (e : ExcKind)
  | reraised (e : ExcKind)
deriving Repr, DecidableEq

/-- Lines 799-806 of `post_run`: if the error queue is non-empty, take the
first enqueued entry; a well-known kind is raised as `RunAborted(exc[1])`
(no traceback); any other kind is re-raised as `exc[0], exc[1], exc[2]`. -/
def post_run_surface (err_queue : List ExcKind) : Option RunOutcome :=
  match err_queue with
  | [] => none
  | e :: _ => if isWellKnown e then some (.runAborted e) else some (.reraised e)

/-- C6: with a non-empty error queue, the first queued fault alone determines
the reported outcome — a clean `RunAborted` wrapping it when it is of a
well-known kind, a re-raise of the original fault otherwise — and the faults
queued after it never alter the reported outcome. -/
theorem post_run_first_fault_wins (e : ExcKind) (rest rest2 : List ExcKind) :
    post_run_surface (e :: rest) =
      some (if isWellKnown e then .runAborted e else .reraised e) ∧
    post_run_surface (e :: rest) = post_run_surface (e :: rest2) := by
  constructor
  · by_cases h : isWellKnown e = true
    · simp [post_run_surface, h]
    · simp [post_run_surface, h]
  · rfl

/-! ## Scan lifecycle (`Fei4RunBase.do_run`, lines 620-784)

`do_run` is modelled as the trace of lifecycle events it performs, per
execution strategy, as a function of the outcome of every `self.scan()`
call: normal return (`none`) or a raised exception of a given kind
(`some k`).  The configuration and run-mode commands are modelled as
non-raising, and the abort flag is clear when `do_run` is entered; during
the run it is set exactly by `handle_err` (above) when a scan thread's
exception is not locally recovered.  A handle is a module-config key:
`some id` for a real module or a derived TX-group entry, `none` for the
broadcast entry. -/

/-- Lifecycle events of `do_run`: entering a `register.restored(...)`
context (which captures the snapshot), `self.configure()`,
`register_utils.set_run_mode()`, `self.scan()`, leaving the
`register.restored(...)` context (which reapplies the snapshot),
`register_utils.set_conf_mode()`, and the receiver/FIFO resets. -/
inductive Ev where
  | enterRestore (h : Option String)
  | configure (h : Option String)
  | runMode (h : Option String)
  | scan (h : Option String)
  | restore (h : Option String)
  | confMode (h : Option String)
  | resetRx
  | resetFifo
deriving Repr, DecidableEq

/-- Whether a scan exception makes `handle_err` (lines 857-864) set the
abort flag: every kind does, except a receiver sync / 8b10b error with
`reset_rx_on_error` enabled, which is recovered in place. -/
def excTriggersAbort (reset_rx_on_error : Bool) (k : ExcKind) : Bool :=
  !(reset_rx_on_error && isRxRecoverable k)

/-- Whether the scan outcomes of the given handles leave the abort flag
set after the join loop of a threaded strategy routed their exceptions
through `handle_err`. -/
def anyAbort (reset_rx_on_error : Bool)
    (scanExc : Option String → Option ExcKind)
    (hs : List (Option String)) : Bool :=
  hs.any (fun h =>
    match scanExc h with
    | some k => excTriggersAbort reset_rx_on_error k
    | none => false)

/-- Broadcast + threaded strategy (lines 627-678): one `ExitStack` is
opened; group entries then real modules each enter a restore context and
are configured (lines 630-637), each group is put in run mode (638-643),
the receiver and FIFO are reset, and the per-group scan threads run to
completion inside the `with` block (649-672).  A scan thread's exception
is caught at the join (663-668) and routed to `handle_err`, so the
`ExitStack` always closes normally (end of line 672), reapplying the
snapshots in reverse entry order; the final conf-mode loop (673-678)
checks the abort flag before each group and is skipped entirely when a
scan fault set it. -/
def doRunBroadcastThreaded (reset_rx_on_error : Bool)
    (scanExc : Option String → Option ExcKind)
    (txGroups : List (String × List String)) (modules : List String) : List Ev :=
  let cfgOrder : List (Option String) :=
    txGroups.map (fun g => some g.1) ++ modules.map some
  (cfgOrder.bind (fun h => [.enterRestore h, .configure h])) ++
    (txGroups.map (fun g => Ev.runMode (some g.1))) ++
    [.resetRx, .resetFifo] ++
    (txGroups.map (fun g => Ev.scan (some g.1))) ++
    (cfgOrder.reverse.map Ev.restore) ++
    (if anyAbort reset_rx_on_error scanExc (txGroups.map (fun g => some g.1))
     then []
     else txGroups.map (fun g => Ev.confMode (some g.1)))

/-- Broadcast + sequential strategy (lines 680-707): per TX group, an
`ExitStack` is opened, the group entry then its members enter restore
contexts and are configured (684-691), the group is put in run mode, the
receiver and FIFO are reset, and `scan()` runs (692-703).  On a normal
return the `ExitStack` closes, reapplying the snapshots in reverse order,
and the group is put in conf mode (705-707); an exception escaping
`scan()` (line 703) also closes the `ExitStack` — reapplying the
snapshots — but then propagates out of `do_run`, skipping `set_conf_mode`
and the remaining groups. -/
def doRunBroadcastSequential (scanExc : Option String → Option ExcKind)
    (txGroups : List (String × List String)) : List Ev :=
  match txGroups with
  | [] => []
  | g :: rest =>
    let order : List (Option String) := some g.1 :: g.2.map some
    let pre : List Ev :=
      (order.bind (fun h => [.enterRestore h, .configure h])) ++
        [.runMode (some g.1), .resetRx, .resetFifo, .scan (some g.1)] ++
        (order.reverse.map Ev.restore)
    match scanExc (some g.1) with
    | some _ => pre
    | none => pre ++ [.confMode (some g.1)] ++ doRunBroadcastSequential scanExc rest

/-- The rounds of `itertools.izip_longest(*self._tx_module_groups.values())`
(line 712): the i-th round holds the i-th member of every TX group, with
`None` filling exhausted groups. -/
def padTranspose (gs : List (List String)) : List (List (Option String)) :=
  (List.range ((gs.map List.length).foldr max 0)).map
    (fun i => gs.map (fun g => g.get? i))

/-- The per-round body of the individual + threaded strategy
(lines 713-759): per round, an `ExitStack` is opened, each module of the
round enters a restore context, is configured and put in run mode, then
the receiver and FIFO are reset (715-729); the scan threads run to
completion inside the `with` block, their exceptions caught at the join
(742-748) and routed to `handle_err`; the `ExitStack` always closes,
reapplying the snapshots in reverse order; the per-round conf-mode loop
(754-759) and the following rounds (abort check at 713-714) are skipped
once a scan fault set the abort flag. -/
def doRunIndividualThreadedRounds (reset_rx_on_error : Bool)
    (scanExc : Option String → Option ExcKind) :
    List (List (Option String)) → List Ev
  | [] => []
  | round :: rest =>
    (round.bind (fun h =>
      [.enterRestore h, .configure h, .runMode h, .resetRx, .resetFifo])) ++
      (round.map Ev.scan) ++
      (round.reverse.map Ev.restore) ++
      (if anyAbort reset_rx_on_error scanExc round
       then []
       else round.map Ev.confMode ++
         doRunIndividualThreadedRounds reset_rx_on_error scanExc rest)

/-- Individual + threaded strategy (lines 709-759). -/
def doRunIndividualThreaded (reset_rx_on_error : Bool)
    (scanExc : Option String → Option ExcKind)
    (txGroups : List (String × List String)) : List Ev :=
  doRunIndividualThreadedRounds reset_rx_on_error scanExc
    (padTranspose (txGroups.map (fun g => g.2)))

/-- Individual + sequential strategy (lines 761-782): per module, a single
`register.restored(...)` context encloses configure, run mode, the
resets, `scan()` and `set_conf_mode()` (768-782).  On a normal scan
return the chip is switched to conf mode (782) and the snapshot is
reapplied when the context exits; lines 768-782 have no try/finally, so
an exception escaping `scan()` (line 780) closes the context — reapplying
the snapshot — while `set_conf_mode` is skipped, and then propagates out
of `do_run`, ending the loop. -/
def doRunIndividualSequential (scanExc : Option String → Option ExcKind)
    (modules : List String) : List Ev :=
  match modules with
  | [] => []
  | m :: rest =>
    let pre : List Ev :=
      [.enterRestore (some m), .configure (some m), .runMode (some m),
       .resetRx, .resetFifo, .scan (some m)]
    match scanExc (some m) with
    | some _ => pre ++ [.restore (some m)]
    | none => pre ++ [.confMode (some m), .restore (some m)] ++
        doRunIndividualSequential scanExc rest

/-- The whole of `do_run`, dispatching on the two configuration flags
(lines 625, 626, 679, 708-709, 760), given the recovery flag and the
outcome of every scan call. -/
def do_run (broadcast_commands threaded_scan reset_rx_on_error : Bool)
    (scanExc : Option String → Option ExcKind)
    (txGroups : List (String × List String)) (modules : List String) : List Ev :=
  if broadcast_commands then
    if threaded_scan then
      doRunBroadcastThreaded reset_rx_on_error scanExc txGroups modules
    else doRunBroadcastSequential scanExc txGroups
  else
    if threaded_scan then
      doRunIndividualThreaded reset_rx_on_error scanExc txGroups
    else doRunIndividualSequential scanExc modules

/-- Scans a trace front to back, accumulating the handles already switched
to conf mode, and checks that every snapshot restore is preceded by a
conf-mode switch of the same handle. -/
def restoreOk : List Ev → List (Option String) → Bool
  | [], _ => true
  | .enterRestore _ :: t, acc => restoreOk t acc
  | .configure _ :: t, acc => restoreOk t acc
  | .runMode _ :: t, acc => restoreOk t acc
  | .scan _ :: t, acc => restoreOk t acc
  | .resetRx :: t, acc => restoreOk t acc
  | .resetFifo :: t, acc => restoreOk t acc
  | .confMode h :: t, acc => restoreOk t (h :: acc)
  | .restore h :: t, acc => acc.contains h && restoreOk t acc

/-- Whether every register-snapshot restore in the trace happens after the
same handle was switched out of run mode into configuration mode. -/
def confModeBeforeRestore (t : List Ev) : Bool := restoreOk t []

/-- C2 counterexample: the claim "in every execution strategy the chip is
switched to configuration mode before the pre-scan register snapshot is
reapplied" is false at concrete inputs.  With one TX group holding one
module and every scan returning normally, the broadcast sequential,
broadcast threaded and individual threaded strategies all reapply the
snapshots (when the `ExitStack` closes) before `set_conf_mode` runs; and
in the individual sequential strategy a scan that raises (here an
`AnalysisError`) makes `register.restored` reapply the snapshot while
`set_conf_mode` (line 782) is skipped. -/
theorem conf_mode_before_restore_fails :
    confModeBeforeRestore (do_run true false false (fun _ => none)
      [("module_group_TX=tx0", ["module_1"])] ["module_1"]) = false ∧
    confModeBeforeRestore (do_run true true false (fun _ => none)
      [("module_group_TX=tx0", ["module_1"])] ["module_1"]) = false ∧
    confModeBeforeRestore (do_run false true false (fun _ => none)
      [("module_group_TX=tx0", ["module_1"])] ["module_1"]) = false ∧
    confModeBeforeRestore (do_run false false false
      (fun _ => some .analysisError)
      [("module_group_TX=tx0", ["module_1"])] ["module_1"]) = false := by
  refine ⟨by rfl, by rfl, by rfl, by rfl⟩

/-- In the individual sequential strategy, when none of the scans raises,
the restore check holds for any starting accumulator. -/
theorem restoreOk_individual_sequential
    (scanExc : Option String → Option ExcKind) (ms : List String)
    (hok : ∀ m ∈ ms, scanExc (some m) = none)
    (acc : List (Option String)) :
    restoreOk (doRunIndividualSequential scanExc ms) acc = true := by
  induction ms generalizing acc with
  | nil => rfl
  | cons m tail ih =>
    have hm : scanExc (some m) = none := hok m (by simp)
    have htail : ∀ m2 ∈ tail, scanExc (some m2) = none :=
      fun m2 hm2 => hok m2 (by simp [hm2])
    simp only [doRunIndividualSequential, hm, List.cons_append,
      List.nil_append, restoreOk]
    have hc : (((some m) :: acc).contains (some m)) = true := by
      simp [List.contains_cons]
    rw [hc]
    simpa using ih htail ((some m) :: acc)

/-- C2 amended: only in the individual sequential strategy
(`broadcast_commands = False`, `threaded_scan = False`), and only for
scans that return normally, is the chip switched out of run mode into
configuration mode before the pre-scan register snapshot is reapplied:
when no scan raises, the ordering holds for every module; when a scan
raises, the `register.restored` context closes — reapplying the snapshot
— while `set_conf_mode` is skipped and the run ends; and in each of the
other three strategies the `ExitStack` reapplies the snapshots before any
`set_conf_mode` call even when every scan returns normally, as the
concrete one-group two-module configuration shows. -/
theorem conf_mode_before_restore_amended :
    (∀ (reset_rx_on_error : Bool) (scanExc : Option String → Option ExcKind)
       (txGroups : List (String × List String)) (modules : List String),
      (∀ m ∈ modules, scanExc (some m) = none) →
      confModeBeforeRestore
        (do_run false false reset_rx_on_error scanExc txGroups modules) = true) ∧
    (∀ (reset_rx_on_error : Bool) (scanExc : Option String → Option ExcKind)
       (txGroups : List (String × List String)) (m : String)
       (rest : List String) (k : ExcKind),
      scanExc (some m) = some k →
      do_run false false reset_rx_on_error scanExc txGroups (m :: rest) =
        [.enterRestore (some m), .configure (some m), .runMode (some m),
         .resetRx, .resetFifo, .scan (some m), .restore (some m)] ∧
      confModeBeforeRestore
        (do_run false false reset_rx_on_error scanExc txGroups (m :: rest)) = false) ∧
    (confModeBeforeRestore (do_run true false false (fun _ => none)
      [("module_group_TX=tx1", ["module_a", "module_b"])]
      ["module_a", "module_b"]) = false ∧
     confModeBeforeRestore (do_run true true false (fun _ => none)
      [("module_group_TX=tx1", ["module_a", "module_b"])]
      ["module_a", "module_b"]) = false ∧
     confModeBeforeRestore (do_run false true false (fun _ => none)
      [("module_group_TX=tx1", ["module_a", "module_b"])]
      ["module_a", "module_b"]) = false) := by
  refine ⟨?_, ?_, by rfl, by rfl, by rfl⟩
  · intro reset_rx_on_error scanExc txGroups modules hok
    exact restoreOk_individual_sequential scanExc modules hok []
  · intro reset_rx_on_error scanExc txGroups m rest k hk
    constructor
    · simp [do_run, doRunIndividualSequential, hk]
    · simp [confModeBeforeRestore, do_run, doRunIndividualSequential, hk,
        restoreOk]

/-- C2 amended, instantiated: with a normally returning scan the
individual sequential trace switches to conf mode before the restore;
with a raising scan its trace ends in a restore with no conf mode. -/
theorem conf_mode_before_restore_amended_witness :
    confModeBeforeRestore (do_run false false false (fun _ => none)
      [] ["module_1"]) = true ∧
    confModeBeforeRestore (do_run false false false
      (fun _ => some .stopTimeout) [] ["module_1"]) = false :=
  ⟨conf_mode_before_restore_amended.1 false (fun _ => none) [] ["module_1"]
      (fun _ _ => rfl),
   (conf_mode_before_restore_amended.2.1 false (fun _ => some .stopTimeout) []
      "module_1" [] .stopTimeout rfl).2⟩

/-! ## Concurrent readout coordinator (`start_readout`, lines 1072-1115)

Only the registration phase of `start_readout` — the validity checks and
the membership-set append, lines 1084-1095, before the wait loop — decides
whether a call raises; it is modelled as a function of the coordinator
state and the calling thread. -/

/-- The readout-coordination state: the names of the running scan threads
(`self._scan_threads`) and the actively-reading membership set
(`self._running_readout_t`, holding thread names in threaded mode and the
current module handle — possibly `None` — in sequential mode). -/
structure ReadoutState where
  scan_threads : List String
  running_readout_t : List (Option String)
  readout_event : Bool
deriving Repr, DecidableEq

/-- The two `RuntimeError`s of lines 1084-1087. -/
inductive ReadoutErr where
  | invalidThreadName
  | alreadyReadingFifo
deriving Repr, DecidableEq

/-- Lines 1084-1095 of `start_readout`: with scan threads running, a caller
whose thread name is not a scan thread raises; a caller already in
`_running_readout_t` raises "already actively reading FIFO"; otherwise the
thread name (threaded) or the current module handle (sequential) is
appended to the membership set and the readout event is cleared. -/
def start_readout_entry (s : ReadoutState) (threadName : String)
    (currentModuleHandle : Option String) : Except ReadoutErr ReadoutState :=
  if s.scan_threads ≠ [] ∧ threadName ∉ s.scan_threads then
    .error .invalidThreadName
  else if s.scan_threads ≠ [] ∧ (some threadName) ∈ s.running_readout_t then
    .error .alreadyReadingFifo
  else if s.scan_threads ≠ [] then
    .ok { s with running_readout_t := s.running_readout_t ++ [some threadName],
                 readout_event := false }
  else
    .ok { s with running_readout_t := s.running_readout_t ++ [currentModuleHandle],
                 readout_event := false }

/-- C3 counterexample: the claim "a redundant start_readout call by a handle
already registered in the actively-reading membership set is coalesced and
does not raise" is false: with scan thread T1 running and T1 already in
`_running_readout_t`, `start_readout` raises the RuntimeError of line 1087
instead of coalescing. -/
theorem redundant_start_readout_raises :
    start_readout_entry ⟨["T1"], [some "T1"], false⟩ "T1" (some "T1") =
      .error .alreadyReadingFifo := by
  rfl

/-- C3 amended: in threaded mode (scan threads running) a redundant
`start_readout` by a thread already in the membership set raises the
"already actively reading FIFO" RuntimeError; only in sequential mode
(no scan threads) does a start not raise — the current module handle is
appended to the membership set (again) unconditionally. -/
theorem redundant_start_readout_amended (s : ReadoutState) (tn : String)
    (h : Option String) :
    (s.scan_threads ≠ [] → tn ∈ s.scan_threads → (some tn) ∈ s.running_readout_t →
      start_readout_entry s tn h = .error .alreadyReadingFifo) ∧
    (s.scan_threads = [] →
      start_readout_entry s tn h =
        .ok { s with running_readout_t := s.running_readout_t ++ [h],
                     readout_event := false }) := by
  constructor
  · intro h1 h2 h3
    simp [start_readout_entry, h1, h2, h3]
  · intro h1
    simp [start_readout_entry, h1]

/-- C3 amended, instantiated: a redundant threaded start raises, and a
redundant sequential start (empty scan-thread list) does not. -/
theorem redundant_start_readout_amended_witness :
    start_readout_entry ⟨["T2"], [some "T2"], true⟩ "T2" none =
      .error .alreadyReadingFifo ∧
    start_readout_entry ⟨[], [some "m1"], true⟩ "MainThread" (some "m1") =
      .ok ⟨[], [some "m1", some "m1"], false⟩ :=
  ⟨(redundant_start_readout_amended ⟨["T2"], [some "T2"], true⟩ "T2" none).1
      (by decide) (by decide) (by decide),
   (redundant_start_readout_amended ⟨[], [some "m1"], true⟩ "MainThread" (some "m1")).2
      (by decide)⟩

/-! ## Module scope switching (`access_module` / `select_module` /
`deselect_module` / `current_module_handle`)

The state relevant to scope switching is `self._current_module_handle`
(`none` both before any selection and when the broadcast module is
selected, matching the Python `None`).  The `OUTPUT_ENABLE` writes of
`select_module`/`deselect_module` touch only the DUT hardware, not this
state. -/

/-- The Python substring test `module_id in thread_name` of line 138. -/
def containsSubstring (sub s : String) : Bool := decide (sub.data <:+: s.data)

/-- Lines 136-144: the module handle derived from the thread name — the
module-config keys (other than `None`) occurring as substrings of the
thread name; more than one match raises a RuntimeError, no match resolves
to `None` (the broadcast module). -/
def resolveModuleHandle (cfgIds : List (Option String)) (threadName : String) :
    Except String (Option String) :=
  let module_handles := (cfgIds.filterMap id).filter
    (fun mid => containsSubstring mid threadName)
  if 1 < module_handles.length then
    .error "Could not determine module handle"
  else
    match module_handles with
    | [] => .ok none
    | mid :: _ => .ok (some mid)

/-- The `current_module_handle` property (lines 134-146): the explicitly
selected handle when one is set, otherwise thread-name resolution. -/
def current_module_handle (cur : Option String) (cfgIds : List (Option String))
    (threadName : String) : Except String (Option String) :=
  match cur with
  | none => resolveModuleHandle cfgIds threadName
  | some mid => .ok (some mid)

/-- Outcome of a Python block that mutates `_current_module_handle`: either
normal completion or a propagating exception, each carrying the handle
state left behind. -/
inductive PyResult where
  | ok (handle : Option String)
  | exn (msg : String) (handle : Option String)
deriving Repr, DecidableEq

/-- The handle state a `PyResult` leaves behind. -/
def pyHandle : PyResult → Option String
  | .ok h => h
  | .exn _ h => h

/-- `select_module` (lines 966-985): raises `ValueError` for an unknown
module ID, leaving the handle unchanged; otherwise sets
`_current_module_handle = module_id` (the DUT `OUTPUT_ENABLE` writes are
hardware effects outside this state). -/
def select_module (cfgIds : List (Option String)) (mid : Option String)
    (cur : Option String) : PyResult :=
  if mid ∈ cfgIds then .ok mid
  else .exn "Module ID is not valid" cur

/-- `access_module` (lines 956-964): `select_module`, the body, then
`deselect_module` (which sets the handle to `None`), with a `finally`
block that sets `_current_module_handle = None` on every exit path. -/
def access_module (cfgIds : List (Option String)) (mid : Option String)
    (body : Option String → PyResult) (cur : Option String) : PyResult :=
  let r : PyResult :=
    match select_module cfgIds mid cur with
    | .exn m h1 => .exn m h1
    | .ok h1 =>
      match body h1 with
      | .exn m h2 => .exn m h2
      | .ok _ => .ok none
  match r with
  | .ok _ => .ok none
  | .exn m _ => .exn m none

/-- C9: for every module ID, every body and every outcome — normal return,
an invalid-ID `ValueError` from `select_module`, or an exception raised by
the body — leaving `access_module` leaves `_current_module_handle = None`,
so a subsequent `current_module_handle` read resolves the handle from the
thread name again. -/
theorem access_module_restores_handle (cfgIds : List (Option String))
    (mid : Option String) (body : Option String → PyResult)
    (cur : Option String) (threadName : String) :
    pyHandle (access_module cfgIds mid body cur) = none ∧
    current_module_handle (pyHandle (access_module cfgIds mid body cur))
        cfgIds threadName =
      resolveModuleHandle cfgIds threadName := by
  have h : pyHandle (access_module cfgIds mid body cur) = none := by
    unfold access_module select_module
    by_cases hmem : mid ∈ cfgIds
    · simp only [if_pos hmem]
      cases body mid with
      | ok h2 => rfl
      | exn m h2 => rfl
    · simp only [if_neg hmem]
      rfl
  exact ⟨h, by rw [h]; rfl⟩

/-! ## Per-module attribute routing (`__setattr__` / `__getattr__`,
lines 933-954)

After `__init__` sets `_initialized = True`, an attribute assignment whose
name is not already in the instance `__dict__` is routed into
`self._module_attr[self.current_module_handle]`; attribute reads fall back
to that same per-handle map when normal lookup fails.  Attribute values
are abstracted by a type parameter. -/

/-- Insert or overwrite a key in an association list (a Python dict item
assignment). -/
def dictInsert {V : Type} (l : List (String × V)) (k : String) (v : V) :
    List (String × V) :=
  match l with
  | [] => [(k, v)]
  | (k0, v0) :: t => if k0 = k then (k0, v) :: t else (k0, v0) :: dictInsert t k v

/-- `self._module_attr[h][k] = v`: `none` models the `KeyError` raised when
the handle `h` is not a key of `_module_attr`. -/
def moduleAttrSet {V : Type} (m : List (Option String × List (String × V)))
    (h : Option String) (k : String) (v : V) :
    Option (List (Option String × List (String × V))) :=
  match m with
  | [] => none
  | (h0, d) :: t =>
    if h0 = h then some ((h0, dictInsert d k v) :: t)
    else
      match moduleAttrSet t h k v with
      | some t2 => some ((h0, d) :: t2)
      | none => none

/-- The run object's attribute state: the instance `__dict__`, the
per-handle `_module_attr` maps, and the `is_initialized` test
(`"_initialized" in self.__dict__ and self._initialized`, lines 127-132). -/
structure AttrState (V : Type) where
  instance_dict : List (String × V)
  module_attr : List (Option String × List (String × V))
  is_initialized : Bool
deriving Repr

/-- `__setattr__` (lines 933-939) with `cur` the currently resolved module
handle: when initialized and the name is not an existing instance
attribute, the value is stored in the current handle's `_module_attr` map;
otherwise it is stored as a normal instance attribute. -/
def fei4_setattr {V : Type} (s : AttrState V) (cur : Option String)
    (name : String) (v : V) : Option (AttrState V) :=
  if s.is_initialized = true ∧ (s.instance_dict.lookup name).isNone then
    match moduleAttrSet s.module_attr cur name v with
    | some m2 => some { s with module_attr := m2 }
    | none => none
  else
    some { s with instance_dict := dictInsert s.instance_dict name v }

/-- A full attribute read under handle `cur`: Python first finds instance
attributes in `__dict__`; only on failure `__getattr__` (lines 941-954)
consults `self._module_attr[self.current_module_handle]`; `none` models
the final `AttributeError`. -/
def fei4_getattr {V : Type} (s : AttrState V) (cur : Option String)
    (name : String) : Option V :=
  match s.instance_dict.lookup name with
  | some v => some v
  | none =>
    if s.is_initialized = true then
      match s.module_attr.lookup cur with
      | some d => d.lookup name
      | none => none
    else none

/-- Writing under handle `A` leaves every other handle's attribute map
unchanged. -/
theorem moduleAttrSet_lookup_ne {V : Type}
    (m : List (Option String × List (String × V))) (A B : Option String)
    (k : String) (v : V) (m2 : List (Option String × List (String × V)))
    (hAB : B ≠ A) (hset : moduleAttrSet m A k v = some m2) :
    m2.lookup B = m.lookup B := by
  induction m generalizing m2 with
  | nil => simp [moduleAttrSet] at hset
  | cons hd t ih =>
    obtain ⟨h0, d⟩ := hd
    by_cases hh : h0 = A
    · subst hh
      simp only [moduleAttrSet, if_pos rfl] at hset
      cases hset
      have hb : (B == h0) = false := by simpa [beq_eq_false_iff_ne] using hAB
      simp [List.lookup, hb]
    · simp only [moduleAttrSet, if_neg hh] at hset
      cases ht : moduleAttrSet t A k v with
      | none => rw [ht] at hset; cases hset
      | some t2 =>
        rw [ht] at hset
        cases hset
        by_cases hB : B = h0
        · simp [List.lookup, hB]
        · have hb : (B == h0) = false := by simpa [beq_eq_false_iff_ne] using hB
          simp only [List.lookup, hb]
          exact ih t2 ht

/-- A key just inserted into an association list is found with its new
value. -/
theorem dictInsert_lookup_self {V : Type} (l : List (String × V)) (k : String)
    (v : V) : (dictInsert l k v).lookup k = some v := by
  induction l with
  | nil => simp [dictInsert, List.lookup]
  | cons hd t ih =>
    obtain ⟨k0, v0⟩ := hd
    by_cases hk : k0 = k
    · simp [dictInsert, hk, List.lookup]
    · have hb : (k == k0) = false := by
        simp only [beq_eq_false_iff_ne, ne_eq]
        exact fun hc => hk hc.symm
      simp only [dictInsert, if_neg hk, List.lookup, hb]
      exact ih

/-- Writing under handle `A` stores the value in `A`'s attribute map. -/
theorem moduleAttrSet_lookup_self {V : Type}
    (m : List (Option String × List (String × V))) (A : Option String)
    (k : String) (v : V) (m2 : List (Option String × List (String × V)))
    (hset : moduleAttrSet m A k v = some m2) :
    ∃ d2, m2.lookup A = some d2 ∧ d2.lookup k = some v := by
  induction m generalizing m2 with
  | nil => simp [moduleAttrSet] at hset
  | cons hd t ih =>
    obtain ⟨h0, d⟩ := hd
    by_cases hh : h0 = A
    · simp only [moduleAttrSet, if_pos hh] at hset
      cases hset
      refine ⟨dictInsert d k v, ?_, dictInsert_lookup_self d k v⟩
      simp [List.lookup, hh]
    · simp only [moduleAttrSet, if_neg hh] at hset
      cases ht : moduleAttrSet t A k v with
      | none => rw [ht] at hset; cases hset
      | some t2 =>
        rw [ht] at hset
        cases hset
        obtain ⟨d2, hd2, hk⟩ := ih t2 ht
        refine ⟨d2, ?_, hk⟩
        have hb : (A == h0) = false := by
          simp only [beq_eq_false_iff_ne, ne_eq]
          exact fun hc => hh hc.symm
        simp only [List.lookup, hb]
        exact hd2

/-- C10: after initialization, assigning a fresh attribute name under
handle `A` stores the value in `A`'s per-module attribute map, and a
subsequent read of that name under a different handle `B` (whose map does
not hold the name) does not observe the value — it raises
`AttributeError`. -/
theorem per_module_attribute_isolation {V : Type} (s : AttrState V)
    (A B : Option String) (name : String) (v : V) (s2 : AttrState V)
    (hinit : s.is_initialized = true) (hAB : B ≠ A)
    (hfresh : (s.instance_dict.lookup name).isNone)
    (hBfresh : ∀ dB, s.module_attr.lookup B = some dB → dB.lookup name = none)
    (hset : fei4_setattr s A name v = some s2) :
    (∃ dA, s2.module_attr.lookup A = some dA ∧ dA.lookup name = some v) ∧
    fei4_getattr s2 B name = none ∧
    fei4_getattr s2 B name ≠ some v := by
  have hcond : s.is_initialized = true ∧ (s.instance_dict.lookup name).isNone :=
    ⟨hinit, hfresh⟩
  simp only [fei4_setattr, if_pos hcond] at hset
  cases hm : moduleAttrSet s.module_attr A name v with
  | none => rw [hm] at hset; cases hset
  | some m2 =>
    rw [hm] at hset
    cases hset
    have hinstance : (AttrState.mk s.instance_dict m2 s.is_initialized).instance_dict
        = s.instance_dict := rfl
    have hstored := moduleAttrSet_lookup_self s.module_attr A name v m2 hm
    have hBsame := moduleAttrSet_lookup_ne s.module_attr A B name v m2 hAB hm
    have hget : fei4_getattr (AttrState.mk s.instance_dict m2 s.is_initialized) B name
        = none := by
      simp only [fei4_getattr, hinstance]
      rw [Option.isNone_iff_eq_none] at hfresh
      rw [hfresh, hinit]
      simp only [if_pos rfl, hBsame]
      cases hB : s.module_attr.lookup B with
      | none => rfl
      | some dB => exact hBfresh dB hB
    refine ⟨hstored, hget, ?_⟩
    rw [hget]
    intro hc
    cases hc

/-- C10 instantiated: writing `x = 7` under handle `m1` and reading `x`
under handle `m2` raises `AttributeError` instead of observing the value. -/
theorem per_module_attribute_isolation_witness :
    fei4_getattr (AttrState.mk ([] : List (String × Nat))
      [(some "m1", [("x", 7)]), (some "m2", [])] true) (some "m2") "x" = none :=
  (per_module_attribute_isolation
    (AttrState.mk ([] : List (String × Nat)) [(some "m1", []), (some "m2", [])] true)
    (some "m1") (some "m2") "x" 7
    (AttrState.mk ([] : List (String × Nat)) [(some "m1", [("x", 7)]), (some "m2", [])] true)
    rfl (by decide) rfl
    (fun dB h => by
      have h2 : ([] : List (String × Nat)) = dB := Option.some.inj h
      rw [← h2]
      rfl)
    rfl).2.1
